import Mathlib

/-!
Verification development for the LightClock firmware core.

The definitions below are a shallow embedding of the C sources:
  * `src/main/ble_alarm.c`   — protocol normalizer, GATT write dispatch,
    advertising lifecycle (session state machine),
  * `src/main/timekeeper.c`  — alarm scheduler,
  * `src/unnamed/part_010`   — device configuration validation / load /
    parse / format (device_config.c),
  * `src/unnamed/part_004`   — orchestrator write callbacks and the alarm
    light-gradient loop (app main),
  * `src/unnamed/part_009`   — button polling driver (button.c).

Bytes are modelled as `Nat` (the C sources read them from `uint8_t`
buffers, so all values are < 256); byte strings as `List Nat`.
-/

namespace LightClock

/-! ## Protocol normalizer (src/main/ble_alarm.c) -/

/-- Embeds `is_ascii_digit`: c is in `'0'..'9'` (48..57). -/
def isAsciiDigit (c : Nat) : Bool :=
  48 ≤ c && c ≤ 57

/-- Characters stripped by the tolerant ASCII paths: NUL, space, CR, LF, TAB
(the loop conditions in `try_normalize_write_to_hhmm4` /
`try_normalize_write_to_hhmme5`). -/
def isTrimChar (c : Nat) : Bool :=
  c = 0 || c = 32 || c = 13 || c = 10 || c = 9

/-- Embeds the start/end trimming scan: drop trim characters from both ends. -/
def trimBytes (data : List Nat) : List Nat :=
  ((data.dropWhile isTrimChar).reverse.dropWhile isTrimChar).reverse

/-- Strategy 4 of `try_normalize_write_to_hhmm4`: packed BCD, exactly two
bytes, each nibble in 0..9, reassembled into four ASCII digits. -/
def bcdAttempt (data : List Nat) : Option (List Nat) :=
  match data with
  | [hh, mm] =>
    let hhHi := hh / 16 % 16
    let hhLo := hh % 16
    let mmHi := mm / 16 % 16
    let mmLo := mm % 16
    if hhHi ≤ 9 && hhLo ≤ 9 && mmHi ≤ 9 && mmLo ≤ 9 then
      some [48 + hhHi, 48 + hhLo, 48 + mmHi, 48 + mmLo]
    else none
  | _ => none

/-- Little-endian accumulation `v_le |= data[i] << (8*i)` of strategy 5. -/
def leValue : List Nat → Nat → Nat
  | [], _ => 0
  | b :: rest, i => (b <<< (8 * i)) ||| leValue rest (i + 1)

/-- Strategy 5 of `try_normalize_write_to_hhmm4`: 2- or 4-byte little-endian
integer that reads as a decimal HHMM number. -/
def leAttempt (data : List Nat) : Option (List Nat) :=
  if data.length = 2 || data.length = 4 then
    let v := leValue data 0
    if v ≤ 2359 then
      let hh := v / 100
      let mm := v % 100
      if hh < 24 && mm < 60 then
        some [48 + hh / 10, 48 + hh % 10, 48 + mm / 10, 48 + mm % 10]
      else none
    else none
  else none

/-- Embeds `try_normalize_write_to_hhmm4`: the five decoder strategies in
their source order (exact 4-digit ASCII; trimmed 4-digit ASCII; trimmed 1–4
digits zero-left-padded; packed BCD; little-endian integer). -/
def tryNormalizeWriteToHhmm4 (data : List Nat) : Option (List Nat) :=
  if data.isEmpty then none
  else if data.length = 4 && data.all isAsciiDigit then some data
  else
    let trimmed := trimBytes data
    if !trimmed.isEmpty && trimmed.length = 4 && trimmed.all isAsciiDigit then
      some trimmed
    else if !trimmed.isEmpty && 1 ≤ trimmed.length && trimmed.length ≤ 4
        && trimmed.all isAsciiDigit then
      some (List.replicate (4 - trimmed.length) 48 ++ trimmed)
    else
      match bcdAttempt data with
      | some out => some out
      | none => leAttempt data

/-- Strategy 1 of `try_normalize_write_to_hhmme5`: exactly five bytes, four
ASCII digits and a trailing `'0'`/`'1'`. -/
def hhmme5Exact (data : List Nat) : Bool :=
  match data with
  | [d0, d1, d2, d3, d4] =>
    isAsciiDigit d0 && isAsciiDigit d1 && isAsciiDigit d2 && isAsciiDigit d3
      && (d4 = 48 || d4 = 49)
  | _ => false

/-- Embeds `try_normalize_write_to_hhmme5`: exact 5-digit form, then the
backward-compatible HHMM form (enable defaults to `'1'`), then the trimmed
digit-collecting form. -/
def tryNormalizeWriteToHhmme5 (data : List Nat) : Option (List Nat) :=
  if data.isEmpty then none
  else if hhmme5Exact data then some data
  else
    match tryNormalizeWriteToHhmm4 data with
    | some hhmm4 => some (hhmm4 ++ [49])
    | none =>
      let trimmed := trimBytes data
      if trimmed.isEmpty then none
      else
        let ds := (trimmed.filter isAsciiDigit).take 5
        if ds.length < 4 then none
        else
          let e0 := if 5 ≤ ds.length then ds.getD 4 49 else 49
          let e1 := if e0 = 48 || e0 = 49 then e0 else 49
          some (ds.take 4 ++ [e1])

/-! ## Device configuration (src/unnamed/part_010, device_config.c) -/

/-- Embeds `device_config_t` (all fields are `uint8_t` in the source;
`alarm_enabled` is the 0/1 flag). -/
structure DeviceConfig where
  alarmHour : Nat
  alarmMinute : Nat
  alarmEnabled : Nat
  colorTemp : Nat
  wakeBright : Nat
  sunriseDuration : Nat
deriving DecidableEq, Repr

/-- Embeds `cfg_default()`. The five numeric defaults come from the
`DEVICE_CONFIG_DEFAULT_*` macros in the headers under `src/unnamed`.
Modelled from the spec: the `alarm_enabled` default
(`DEVICE_CONFIG_DEFAULT_ENABLED`, defined in the current device_config.h
which is absent from src/) is taken as 1, per the spec's documented
defaults "alarm 07:00 enabled=true". -/
def cfgDefault : DeviceConfig :=
  { alarmHour := 7, alarmMinute := 0, alarmEnabled := 1,
    colorTemp := 50, wakeBright := 100, sunriseDuration := 30 }

/-- Embeds `cfg_valid` (the six-field version of device_config.c). -/
def cfgValid (cfg : DeviceConfig) : Bool :=
  cfg.alarmHour < 24 && cfg.alarmMinute < 60 && cfg.alarmEnabled ≤ 1
    && cfg.colorTemp ≤ 100 && cfg.wakeBright ≤ 100
    && 5 ≤ cfg.sunriseDuration && cfg.sunriseDuration ≤ 60

/-- Embeds `device_config_parse_hhmme_ascii`; returns the configuration with
the three alarm fields replaced (the source writes exactly those fields of
`out_cfg`, and `ble_on_write` merges them into the live configuration). -/
def deviceConfigParseHhmmeAscii (data : List Nat) (cfg : DeviceConfig) :
    Option DeviceConfig :=
  match data with
  | [d0, d1, d2, d3, d4] =>
    if isAsciiDigit d0 && isAsciiDigit d1 && isAsciiDigit d2 && isAsciiDigit d3 then
      if d4 = 48 || d4 = 49 then
        let hh := (d0 - 48) * 10 + (d1 - 48)
        let mm := (d2 - 48) * 10 + (d3 - 48)
        if hh < 24 && mm < 60 then
          some { cfg with
            alarmHour := hh, alarmMinute := mm,
            alarmEnabled := if d4 = 49 then 1 else 0 }
        else none
      else none
    else none
  | _ => none

/-- Embeds `device_config_format_hhmme_ascii`. -/
def deviceConfigFormatHhmmeAscii (cfg : DeviceConfig) : List Nat :=
  [48 + cfg.alarmHour / 10, 48 + cfg.alarmHour % 10,
   48 + cfg.alarmMinute / 10, 48 + cfg.alarmMinute % 10,
   if cfg.alarmEnabled ≠ 0 then 49 else 48]

/-! ## Alarm characteristic write/read dispatch
(`gatts_cb` `ESP_GATTS_WRITE_EVT`/`ESP_GATTS_READ_EVT` branches for the alarm
characteristic in src/main/ble_alarm.c composed with `ble_on_write` /
`ble_on_read` from src/unnamed/part_004) -/

/-- GATT response status values used by the alarm write path. -/
inductive GattStatus
  | ok
  | invalidAttrLen
  | writeNotPermit
deriving DecidableEq, Repr

/-- Result of one alarm-characteristic write: the response status, the
configuration after the write, the characteristic echo buffer
(`s_char_val_buf`) after the write, and whether `device_config_save` was
invoked. -/
structure AlarmWriteResult where
  status : GattStatus
  cfg : DeviceConfig
  charBuf : List Nat
  persisted : Bool
deriving DecidableEq, Repr

/-- Embeds the alarm-characteristic `ESP_GATTS_WRITE_EVT` branch: normalize
with `try_normalize_write_to_hhmme5`; on success run `ble_on_write` (which
parses via `device_config_parse_hhmme_ascii`, merges the three alarm fields
and saves); on acceptance the normalized bytes are copied into
`s_char_val_buf`; otherwise status `ESP_GATT_INVALID_ATTR_LEN` and nothing
changes. -/
def alarmCharWrite (cfg : DeviceConfig) (charBuf : List Nat) (data : List Nat) :
    AlarmWriteResult :=
  match tryNormalizeWriteToHhmme5 data with
  | none => { status := .invalidAttrLen, cfg := cfg, charBuf := charBuf, persisted := false }
  | some hhmme5 =>
    match deviceConfigParseHhmmeAscii hhmme5 cfg with
    | none => { status := .invalidAttrLen, cfg := cfg, charBuf := charBuf, persisted := false }
    | some cfg2 => { status := .ok, cfg := cfg2, charBuf := hhmme5, persisted := true }

/-- Embeds the alarm-characteristic `ESP_GATTS_READ_EVT` branch: the
response is `ble_on_read` = `device_config_format_hhmme_ascii` of the live
configuration. -/
def alarmCharRead (cfg : DeviceConfig) : List Nat :=
  deviceConfigFormatHhmmeAscii cfg

/-! ## Persisted configuration load (src/unnamed/part_010, device_config.c)

The NVS key/value store is abstracted as six optional `uint8_t` entries
(`nvs_get_u8` either succeeds with a value or reports the key missing);
`none` for the whole store models `nvs_open` returning
`ESP_ERR_NVS_NOT_FOUND` (namespace missing). -/

/-- The six NVS entries of the configuration record, each possibly absent. -/
structure NvsStore where
  alarmH : Option Nat
  alarmM : Option Nat
  alarmE : Option Nat
  colorT : Option Nat
  wakeB : Option Nat
  sunrise : Option Nat
deriving DecidableEq, Repr

/-- Embeds `device_config_load`: start from defaults; if the namespace is
missing, save and return defaults; if hour and minute are both present,
merge every present entry over the defaults and accept the merged record
only if `cfg_valid` holds, otherwise reset wholesale to defaults (and
re-save). The boolean is true when defaults were (re-)saved. -/
def deviceConfigLoad (store : Option NvsStore) : DeviceConfig × Bool :=
  match store with
  | none => (cfgDefault, true)
  | some st =>
    match st.alarmH, st.alarmM with
    | some h, some m =>
      let cfg : DeviceConfig :=
        { alarmHour := h, alarmMinute := m,
          alarmEnabled := st.alarmE.getD cfgDefault.alarmEnabled,
          colorTemp := st.colorT.getD cfgDefault.colorTemp,
          wakeBright := st.wakeB.getD cfgDefault.wakeBright,
          sunriseDuration := st.sunrise.getD cfgDefault.sunriseDuration }
      if cfgValid cfg then (cfg, false) else (cfgDefault, true)
    | _, _ => (cfgDefault, true)

/-! ## Alarm scheduler (src/main/timekeeper.c)

Wall-clock time is `time_t` seconds since the epoch, modelled as `Int`.
`localtime_r` / `mktime` are modelled as UTC civil-time decomposition
(days aligned to the epoch: the firmware configures no time zone or DST
database, so local time is epoch-aligned). -/

/-- Embeds `timekeeper_is_time_sane`: at or after 2023-01-01 00:00:00 UTC. -/
def timekeeperIsTimeSane (now : Int) : Bool :=
  1672531200 ≤ now

/-- The sunrise-duration clamp at the top of
`timekeeper_seconds_until_next_alarm`: out-of-range values fall back to
`DEVICE_CONFIG_DEFAULT_SUNRISE_DURATION_MINUTES` (30), itself clamped
into 5..60. -/
def sunriseMinEffective (cfg : DeviceConfig) : Nat :=
  if cfg.sunriseDuration < 5 || 60 < cfg.sunriseDuration then
    let d : Nat := 30
    let d := if d < 5 then 5 else d
    if 60 < d then 60 else d
  else cfg.sunriseDuration

/-- Embeds `timekeeper_seconds_until_next_alarm`: fallback 60 when the clock
is not sane; otherwise today's alarm instant, advanced by 24 h if already
passed; the sunrise start precedes it by the clamped duration and is itself
advanced by 24 h if already passed; the returned delta is clamped to ≥ 1.
The `target0 < 0` test embeds the `mktime(...) < 0` failure check. -/
def timekeeperSecondsUntilNextAlarm (cfg : DeviceConfig) (now : Int) : Int :=
  if !timekeeperIsTimeSane now then 60
  else
    let sunriseMin : Nat := sunriseMinEffective cfg
    let dayStart := now - now % 86400
    let target0 := dayStart + cfg.alarmHour * 3600 + cfg.alarmMinute * 60
    if target0 < 0 then 60
    else
      let target1 := if target0 ≤ now then target0 + 86400 else target0
      let sunrise0 := target1 - sunriseMin * 60
      let sunrise1 := if sunrise0 ≤ now then sunrise0 + 86400 else sunrise0
      let delta := sunrise1 - now
      if delta < 1 then 1 else delta

/-! ## Alarm gradient brightness (src/unnamed/part_004, app_run_alarm_gradient)

One iteration's published brightness as a function of the target
brightness, the total ramp duration and the elapsed time (both in ms):
cubic ease-in in Q15 fixed point with final rounding, clamped to the
target from above and, once the ramp has started, to 1 from below. -/

/-- The mid-ramp Q15 computation of the gradient loop body: progress
`p = elapsed·2¹⁵/total` clamped to `2¹⁵`, cubed with truncating Q15
multiplies, scaled by the target with final rounding, clamped to the target
from above and to 1 from below (`if (brightness == 0) brightness = 1`). -/
def gradientQ15 (target totalMs elapsedMs : Nat) : Nat :=
  let p := min (elapsedMs * 32768 / totalMs) 32768
  let p2 := p * p / 32768
  let p3 := p2 * p / 32768
  let b := min ((p3 * target + 16384) / 32768) target
  max b 1

/-- Embeds the brightness computation of the gradient loop body. -/
def gradientBrightness (target totalMs elapsedMs : Nat) : Nat :=
  if target = 0 || elapsedMs = 0 then 0
  else if totalMs ≤ elapsedMs then target
  else gradientQ15 target totalMs elapsedMs

/-! ## Advertising session state machine (src/main/ble_alarm.c)

The module-level session flags of ble_alarm.c are gathered into one state
record; the ESP-IDF calls issued by the module are recorded as emitted
commands, and the status each ESP-IDF call would return is passed in as an
input (the code branches on it). `pendAdvCfg` / `pendScanRspCfg` are the
two bits of `s_adv_config_done`; `retryTimerMs` is the delay armed on
`s_adv_retry_timer` (the schedule helper stops any previous one-shot and
starts a new one). `peer` holds the single tracked connection id
(`s_conn_id` / `s_remote_bda`). -/

/-- Result of an ESP-IDF call as seen by the callers in ble_alarm.c. -/
inductive EspResult
  | ok
  | invalidState
  | fail
deriving DecidableEq, Repr

/-- ESP-IDF commands issued by the session module. -/
inductive BleCmd
  | setDeviceName
  | configAdvData
  | configScanRsp
  | startAdv
deriving DecidableEq, Repr

/-- The module-level session state of ble_alarm.c. -/
structure BleSessionState where
  inited : Bool
  connected : Bool
  advStarted : Bool
  wantAdv : Bool
  advDataReady : Bool
  advConfigAttempted : Bool
  pendAdvCfg : Bool
  pendScanRspCfg : Bool
  retryTimerMs : Option Nat
  peer : Option Nat
deriving DecidableEq, Repr

/-- Embeds `ble_alarm_schedule_adv_retry_ms` (timer handle present). -/
def scheduleAdvRetry (s : BleSessionState) (delayMs : Nat) : BleSessionState :=
  { s with retryTimerMs := some delayMs }

/-- The `s_adv_config_done == 0` test: neither payload write in flight. -/
def advConfigDoneZero (s : BleSessionState) : Bool :=
  !s.pendAdvCfg && !s.pendScanRspCfg

/-- Embeds `ble_alarm_try_config_adv_payloads`: single-shot per boot; sets
both pending bits, then clears the bit of any payload-configure call that
failed synchronously. -/
def tryConfigAdvPayloads (s : BleSessionState) (cfgAdvRes cfgScanRes : EspResult) :
    BleSessionState × List BleCmd :=
  if !s.inited then (s, [])
  else if s.advDataReady || !advConfigDoneZero s then (s, [])
  else if s.advConfigAttempted then (s, [])
  else
    let s1 := { s with advConfigAttempted := true, advDataReady := false,
                       pendAdvCfg := true, pendScanRspCfg := true }
    let s2 := if cfgAdvRes ≠ EspResult.ok then { s1 with pendAdvCfg := false } else s1
    let s3 := if cfgScanRes ≠ EspResult.ok then { s2 with pendScanRspCfg := false } else s2
    (s3, [BleCmd.setDeviceName, BleCmd.configAdvData, BleCmd.configScanRsp])

/-- GAP callback events handled by `gap_cb`. -/
inductive GapEvent
  | advDataRawSetComplete
  | scanRspDataRawSetComplete
  | advStartComplete (success : Bool)
  | advStopComplete
deriving DecidableEq, Repr

/-- Embeds `gap_cb`: the event switch (payload-set completions clear their
pending bit; a failed start-complete schedules a 500 ms retry; an
unexpected stop schedules a 200 ms retry), then the common tail that marks
the payloads ready and issues the start command when wanted, not already
started and not connected, scheduling an 800 ms retry if that call fails.
`startRes` is the status `esp_ble_gap_start_advertising` would return. -/
def gapCb (s : BleSessionState) (ev : GapEvent) (startRes : EspResult) :
    BleSessionState × List BleCmd :=
  let s1 :=
    match ev with
    | .advDataRawSetComplete => { s with pendAdvCfg := false }
    | .scanRspDataRawSetComplete => { s with pendScanRspCfg := false }
    | .advStartComplete success =>
      if success then { s with advStarted := true }
      else
        let t := { s with advStarted := false }
        if t.wantAdv && !t.connected then scheduleAdvRetry t 500 else t
    | .advStopComplete =>
      let t := { s with advStarted := false }
      if t.wantAdv && !t.connected then scheduleAdvRetry t 200 else t
  let s2 := if !s1.advDataReady && advConfigDoneZero s1 then
              { s1 with advDataReady := true } else s1
  if advConfigDoneZero s2 && s2.advDataReady && s2.wantAdv
      && !s2.advStarted && !s2.connected then
    if startRes ≠ EspResult.ok then (scheduleAdvRetry s2 800, [BleCmd.startAdv])
    else (s2, [BleCmd.startAdv])
  else (s2, [])

/-- Embeds the `ESP_GATTS_CONNECT_EVT` branch of `gatts_cb`. -/
def gattsConnect (s : BleSessionState) (connId : Nat) : BleSessionState :=
  { s with connected := true, advStarted := false, peer := some connId }

/-- Embeds the `ESP_GATTS_DISCONNECT_EVT` branch of `gatts_cb`: reset the
peer tracking and, if advertising is still wanted, schedule a 50 ms retry. -/
def gattsDisconnect (s : BleSessionState) : BleSessionState :=
  let s1 := { s with connected := false, advStarted := false, peer := none }
  if s1.wantAdv then scheduleAdvRetry s1 50 else s1

/-- Embeds `ble_alarm_start_advertising`: no-op while connected; records the
advertising wish, attempts the single-shot payload configuration, always
arms the 2000 ms self-heal timer, defers if the payloads are not ready, and
otherwise issues the start command — `ESP_ERR_INVALID_STATE` (already
active) is treated as success, any other failure schedules an 800 ms retry
and is returned. -/
def bleAlarmStartAdvertising (s : BleSessionState)
    (cfgAdvRes cfgScanRes startRes : EspResult) :
    BleSessionState × List BleCmd × EspResult :=
  if !s.inited then (s, [], EspResult.invalidState)
  else if s.connected then (s, [], EspResult.ok)
  else
    let s1 := { s with wantAdv := true }
    let sc := tryConfigAdvPayloads s1 cfgAdvRes cfgScanRes
    let s3 := scheduleAdvRetry sc.1 2000
    if !s3.advDataReady || !advConfigDoneZero s3 then (s3, sc.2, EspResult.ok)
    else
      match startRes with
      | .ok => (s3, sc.2 ++ [BleCmd.startAdv], EspResult.ok)
      | .invalidState => (s3, sc.2 ++ [BleCmd.startAdv], EspResult.ok)
      | .fail => (scheduleAdvRetry s3 800, sc.2 ++ [BleCmd.startAdv], EspResult.fail)

/-- Embeds `ble_alarm_adv_retry_cb`: bail out unless initialized, wanted and
not connected; re-attempt the payload configuration; if the payloads are
ready, re-issue the start command — a hard failure schedules a 1200 ms
retry and returns, while success or the benign `ESP_ERR_INVALID_STATE`
falls through to re-arming the 2000 ms self-heal tick. -/
def bleAlarmAdvRetryCb (s : BleSessionState)
    (cfgAdvRes cfgScanRes startRes : EspResult) :
    BleSessionState × List BleCmd :=
  if !s.inited || !s.wantAdv || s.connected then (s, [])
  else
    let sc := tryConfigAdvPayloads s cfgAdvRes cfgScanRes
    if sc.1.advDataReady && advConfigDoneZero sc.1 then
      if startRes = EspResult.fail then
        (scheduleAdvRetry sc.1 1200, sc.2 ++ [BleCmd.startAdv])
      else (scheduleAdvRetry sc.1 2000, sc.2 ++ [BleCmd.startAdv])
    else (scheduleAdvRetry sc.1 2000, sc.2)

/-- A fully configured, advertising-wanted, unconnected session state (the
steady state reached after boot once both advertising payloads applied),
used to exercise the retry-backoff paths. -/
def advReadySession : BleSessionState :=
  { inited := true, connected := false, advStarted := true, wantAdv := true,
    advDataReady := true, advConfigAttempted := true, pendAdvCfg := false,
    pendScanRspCfg := false, retryTimerMs := none, peer := none }

/-! ## Button polling driver (src/unnamed/part_009, button.c) -/

/-- The per-button state of button.c (`last_pressed`, `press_start_us`,
`long_reported`). -/
structure ButtonState where
  lastPressed : Bool
  pressStartUs : Nat
  longReported : Bool
deriving DecidableEq, Repr

/-- Events reported by `button_poll`. -/
inductive ButtonEvent
  | noEvent
  | shortPress
  | longPress
deriving DecidableEq, Repr

/-- Embeds `button_poll`: `pressed` is the debounced GPIO level for this
poll, `nowUs` the monotonic clock (µs, never behind `pressStartUs`),
`longPressMs` the configured threshold. Press edge starts timing; while
held, LONG is emitted exactly once at the threshold; release reports SHORT
only if the hold stayed below the threshold and LONG was not reported. -/
def buttonPoll (btn : ButtonState) (longPressMs : Nat) (pressed : Bool)
    (nowUs : Nat) : ButtonState × ButtonEvent :=
  if pressed && !btn.lastPressed then
    ({ lastPressed := true, pressStartUs := nowUs, longReported := false },
     ButtonEvent.noEvent)
  else if pressed && btn.lastPressed && !btn.longReported then
    let durMs := (nowUs - btn.pressStartUs) / 1000
    if longPressMs ≤ durMs then ({ btn with longReported := true }, ButtonEvent.longPress)
    else (btn, ButtonEvent.noEvent)
  else if !pressed && btn.lastPressed then
    let durMs := (nowUs - btn.pressStartUs) / 1000
    let btn1 := { btn with lastPressed := false, pressStartUs := 0 }
    if btn.longReported || longPressMs ≤ durMs then
      ({ btn1 with longReported := false }, ButtonEvent.noEvent)
    else (btn1, ButtonEvent.shortPress)
  else (btn, ButtonEvent.noEvent)

/-! # Theorems -/

/-- Helper: a rejected alarm write leaves everything unchanged (shared by
several proofs' structure, stated once over the handler). -/
theorem alarmCharWrite_reject (cfg : DeviceConfig) (buf data : List Nat)
    (h : (alarmCharWrite cfg buf data).status ≠ GattStatus.ok) :
    alarmCharWrite cfg buf data =
      { status := .invalidAttrLen, cfg := cfg, charBuf := buf, persisted := false } := by
  unfold alarmCharWrite at h ⊢
  cases h1 : tryNormalizeWriteToHhmme5 data with
  | none => rfl
  | some s =>
    simp only []
    cases h2 : deviceConfigParseHhmmeAscii s cfg with
    | none => rfl
    | some cfg2 =>
      exfalso
      rw [h1] at h
      simp only [] at h
      rw [h2] at h
      exact h rfl

/-- C1. The claim asserts that the 2-byte payload `{0x35, 0x05}` decodes to
the digit string "1325" and is accepted. In the code the packed-BCD
strategy (priority 4) matches this payload first and yields "3505"
(hour 35), so it does not decode to "1325" and the write is rejected. -/
theorem c1_counterexample :
    tryNormalizeWriteToHhmm4 [0x35, 0x05] ≠ some [49, 51, 50, 53] ∧
    (alarmCharWrite cfgDefault [48, 55, 48, 48, 49] [0x35, 0x05]).status ≠
      GattStatus.ok := by
  decide

/-- C1 (amended). For the 2-byte payload `{0x35, 0x05}` the packed-BCD
strategy (priority 4) matches before the little-endian strategy
(priority 5) and decodes it to the digit string "3505"; hour 35 then fails
range validation, so the write to the alarm characteristic is rejected with
the invalid status and nothing changes. -/
theorem c1_bcd_shadows_le (cfg : DeviceConfig) (buf : List Nat) :
    tryNormalizeWriteToHhmm4 [0x35, 0x05] = some [51, 53, 48, 53] ∧
    alarmCharWrite cfg buf [0x35, 0x05] =
      { status := .invalidAttrLen, cfg := cfg, charBuf := buf, persisted := false } := by
  refine ⟨by decide, ?_⟩
  have h1 : tryNormalizeWriteToHhmme5 [0x35, 0x05] = some [51, 53, 48, 53, 49] := by
    decide
  have h2 : deviceConfigParseHhmmeAscii [51, 53, 48, 53, 49] cfg = none := by
    unfold deviceConfigParseHhmmeAscii
    norm_num [isAsciiDigit]
  unfold alarmCharWrite
  rw [h1]
  simp only []
  rw [h2]

/-- C3. The claim allows `sunrise_duration` down to 1 minute. A stored
record with `sunrise_duration = 3` (every field inside the claim's ranges,
3 being within 1–60) is nevertheless replaced wholesale by the defaults:
`cfg_valid` requires `sunrise_duration >= 5`. -/
theorem c3_counterexample :
    (1 ≤ 3 ∧ 3 ≤ 60) ∧
    deviceConfigLoad (some ⟨some 7, some 0, some 1, some 50, some 100, some 3⟩) =
      (cfgDefault, true) ∧
    cfgDefault.sunriseDuration ≠ 3 := by
  decide

/-- C3 (amended). `device_config_load` returns a fully-present stored record
unchanged exactly when every field is within its validated range —
`alarm_hour` 0–23, `alarm_minute` 0–59, `alarm_enabled` 0–1, `color_temp`
0–100, `wake_bright` 0–100 and `sunrise_duration` 5–60 (not 1–60) — and any
record failing validation is replaced wholesale by the defaults
(alarm 07:00 enabled, color_temp 50, wake_bright 100, sunrise_duration 30),
never partially repaired. -/
theorem c3_load_validation (h m e ct wb sd : Nat) :
    deviceConfigLoad (some ⟨some h, some m, some e, some ct, some wb, some sd⟩) =
      if h < 24 ∧ m < 60 ∧ e ≤ 1 ∧ ct ≤ 100 ∧ wb ≤ 100 ∧ 5 ≤ sd ∧ sd ≤ 60 then
        ({ alarmHour := h, alarmMinute := m, alarmEnabled := e,
           colorTemp := ct, wakeBright := wb, sunriseDuration := sd }, false)
      else (cfgDefault, true) := by
  have hiff : (h < 24 ∧ m < 60 ∧ e ≤ 1 ∧ ct ≤ 100 ∧ wb ≤ 100 ∧ 5 ≤ sd ∧ sd ≤ 60) ↔
      cfgValid ⟨h, m, e, ct, wb, sd⟩ = true := by
    simp only [cfgValid, Bool.and_eq_true, decide_eq_true_eq]
    tauto
  simp only [deviceConfigLoad, Option.getD_some]
  by_cases hb : cfgValid ⟨h, m, e, ct, wb, sd⟩ = true
  · rw [if_pos hb, if_pos (hiff.mpr hb)]
  · rw [if_neg hb, if_neg (fun hc => hb (hiff.mp hc))]

/-- C6. A write to the alarm characteristic that fails normalization or
range validation is answered with the invalid status and mutates nothing:
the configuration, the characteristic's echoed value buffer and the
persistence layer are all untouched. -/
theorem c6_rejected_write_unchanged (cfg : DeviceConfig) (buf data : List Nat)
    (h : (alarmCharWrite cfg buf data).status ≠ GattStatus.ok) :
    (alarmCharWrite cfg buf data).status = GattStatus.invalidAttrLen ∧
    (alarmCharWrite cfg buf data).cfg = cfg ∧
    (alarmCharWrite cfg buf data).charBuf = buf ∧
    (alarmCharWrite cfg buf data).persisted = false := by
  rw [alarmCharWrite_reject cfg buf data h]
  exact ⟨rfl, rfl, rfl, rfl⟩

/-- C6 witness: the length-3 non-digit payload "abc" is rejected and leaves
the default configuration, the echo buffer and persistence untouched. -/
theorem c6_rejected_write_unchanged_witness :
    (alarmCharWrite cfgDefault [48, 55, 48, 48, 49] [97, 98, 99]).status ≠
        GattStatus.ok ∧
    ((alarmCharWrite cfgDefault [48, 55, 48, 48, 49] [97, 98, 99]).status =
        GattStatus.invalidAttrLen ∧
      (alarmCharWrite cfgDefault [48, 55, 48, 48, 49] [97, 98, 99]).cfg = cfgDefault ∧
      (alarmCharWrite cfgDefault [48, 55, 48, 48, 49] [97, 98, 99]).charBuf =
        [48, 55, 48, 48, 49] ∧
      (alarmCharWrite cfgDefault [48, 55, 48, 48, 49] [97, 98, 99]).persisted = false) :=
  ⟨by decide, c6_rejected_write_unchanged cfgDefault [48, 55, 48, 48, 49] [97, 98, 99]
      (by decide)⟩

/-- C7. Writing the 5-digit ASCII payload HHMME (H < 24, M < 60,
E ∈ {'0','1'}) to the alarm characteristic is accepted, the configuration
takes the corresponding hour/minute/enabled values, the echo buffer takes
the payload, and the next read of the characteristic reproduces exactly the
same five bytes (round-trip). -/
theorem c7_hhmme_roundtrip (cfg : DeviceConfig) (buf : List Nat) (h m e : Nat)
    (hh : h < 24) (hm : m < 60) (he : e ≤ 1) :
    (alarmCharWrite cfg buf
        [48 + h / 10, 48 + h % 10, 48 + m / 10, 48 + m % 10, 48 + e]).status =
      GattStatus.ok ∧
    (alarmCharWrite cfg buf
        [48 + h / 10, 48 + h % 10, 48 + m / 10, 48 + m % 10, 48 + e]).cfg =
      { cfg with alarmHour := h, alarmMinute := m, alarmEnabled := e } ∧
    (alarmCharWrite cfg buf
        [48 + h / 10, 48 + h % 10, 48 + m / 10, 48 + m % 10, 48 + e]).charBuf =
      [48 + h / 10, 48 + h % 10, 48 + m / 10, 48 + m % 10, 48 + e] ∧
    alarmCharRead (alarmCharWrite cfg buf
        [48 + h / 10, 48 + h % 10, 48 + m / 10, 48 + m % 10, 48 + e]).cfg =
      [48 + h / 10, 48 + h % 10, 48 + m / 10, 48 + m % 10, 48 + e] := by
  have hex : hhmme5Exact [48 + h / 10, 48 + h % 10, 48 + m / 10, 48 + m % 10, 48 + e]
      = true := by
    simp only [hhmme5Exact, isAsciiDigit, Bool.and_eq_true, Bool.or_eq_true,
      decide_eq_true_eq]
    omega
  have hnorm : tryNormalizeWriteToHhmme5
      [48 + h / 10, 48 + h % 10, 48 + m / 10, 48 + m % 10, 48 + e] =
      some [48 + h / 10, 48 + h % 10, 48 + m / 10, 48 + m % 10, 48 + e] := by
    unfold tryNormalizeWriteToHhmme5
    simp [hex]
  have hdig : ((48 + h / 10) - 48) * 10 + ((48 + h % 10) - 48) = h := by omega
  have mdig : ((48 + m / 10) - 48) * 10 + ((48 + m % 10) - 48) = m := by omega
  have hparse : deviceConfigParseHhmmeAscii
      [48 + h / 10, 48 + h % 10, 48 + m / 10, 48 + m % 10, 48 + e] cfg =
      some { cfg with alarmHour := h, alarmMinute := m, alarmEnabled := e } := by
    unfold deviceConfigParseHhmmeAscii
    simp only []
    have hdigits : (isAsciiDigit (48 + h / 10) && isAsciiDigit (48 + h % 10) &&
        isAsciiDigit (48 + m / 10) && isAsciiDigit (48 + m % 10)) = true := by
      simp only [isAsciiDigit, Bool.and_eq_true, decide_eq_true_eq]
      omega
    rw [if_pos hdigits]
    have he' : (decide (48 + e = 48) || decide (48 + e = 49)) = true := by
      simp only [Bool.or_eq_true, decide_eq_true_eq]
      omega
    rw [if_pos he']
    simp only [hdig, mdig]
    rw [if_pos (by simp only [Bool.and_eq_true, decide_eq_true_eq]; omega)]
    obtain rfl | rfl : e = 0 ∨ e = 1 := by omega
    · norm_num
    · norm_num
  have hwrite : alarmCharWrite cfg buf
      [48 + h / 10, 48 + h % 10, 48 + m / 10, 48 + m % 10, 48 + e] =
      { status := .ok,
        cfg := { cfg with alarmHour := h, alarmMinute := m, alarmEnabled := e },
        charBuf := [48 + h / 10, 48 + h % 10, 48 + m / 10, 48 + m % 10, 48 + e],
        persisted := true } := by
    unfold alarmCharWrite
    rw [hnorm]
    simp only []
    rw [hparse]
  refine ⟨by rw [hwrite], by rw [hwrite], by rw [hwrite], ?_⟩
  rw [hwrite]
  show deviceConfigFormatHhmmeAscii _ = _
  unfold deviceConfigFormatHhmmeAscii
  obtain rfl | rfl : e = 0 ∨ e = 1 := by omega
  · norm_num
  · norm_num

/-- C7 witness: the concrete payload "07301" is accepted, sets 07:30
enabled, and reads back identically. -/
theorem c7_hhmme_roundtrip_witness :
    (alarmCharWrite cfgDefault [] [48 + 7 / 10, 48 + 7 % 10, 48 + 30 / 10,
        48 + 30 % 10, 48 + 1]).status = GattStatus.ok ∧
    (alarmCharWrite cfgDefault [] [48 + 7 / 10, 48 + 7 % 10, 48 + 30 / 10,
        48 + 30 % 10, 48 + 1]).cfg =
      { cfgDefault with alarmHour := 7, alarmMinute := 30, alarmEnabled := 1 } ∧
    (alarmCharWrite cfgDefault [] [48 + 7 / 10, 48 + 7 % 10, 48 + 30 / 10,
        48 + 30 % 10, 48 + 1]).charBuf =
      [48 + 7 / 10, 48 + 7 % 10, 48 + 30 / 10, 48 + 30 % 10, 48 + 1] ∧
    alarmCharRead (alarmCharWrite cfgDefault [] [48 + 7 / 10, 48 + 7 % 10,
        48 + 30 / 10, 48 + 30 % 10, 48 + 1]).cfg =
      [48 + 7 / 10, 48 + 7 % 10, 48 + 30 / 10, 48 + 30 % 10, 48 + 1] :=
  c7_hhmme_roundtrip cfgDefault [] 7 30 1 (by decide) (by decide) (by decide)

/-- C2. The claim states the scheduler also returns the short fallback when
the alarm is disabled. It does not: with the alarm disabled
(`alarm_enabled = 0`), a sane clock at midnight 2023-01-01 and the default
07:00 alarm, `timekeeper_seconds_until_next_alarm` returns the full delta
23400 s (07:00 minus the 30-minute sunrise lead), not the fallback 60. -/
theorem c2_counterexample :
    timekeeperIsTimeSane 1672531200 = true ∧
    ({ alarmHour := 7, alarmMinute := 0, alarmEnabled := 0, colorTemp := 50,
       wakeBright := 100, sunriseDuration := 30 } : DeviceConfig).alarmEnabled = 0 ∧
    timekeeperSecondsUntilNextAlarm
      { alarmHour := 7, alarmMinute := 0, alarmEnabled := 0, colorTemp := 50,
        wakeBright := 100, sunriseDuration := 30 } 1672531200 = 23400 ∧
    (23400 : Int) ≠ 60 := by
  refine ⟨by decide, rfl, ?_, by decide⟩
  decide

/-- C2 (amended). `timekeeper_seconds_until_next_alarm` returns the short
fixed fallback interval (60 s) whenever the clock is not sane; it never
consults `alarm_enabled` — suppression of a disabled alarm is done by its
callers, which skip scheduling instead of calling it for that purpose. -/
theorem c2_insane_clock_fallback (cfg : DeviceConfig) (now : Int)
    (h : timekeeperIsTimeSane now = false) :
    timekeeperSecondsUntilNextAlarm cfg now = 60 := by
  unfold timekeeperSecondsUntilNextAlarm
  rw [h]
  rfl

/-- C2 witness: at wall-clock 0 (before the sanity epoch) the scheduler
returns the 60 s fallback. -/
theorem c2_insane_clock_fallback_witness :
    timekeeperIsTimeSane 0 = false ∧
    timekeeperSecondsUntilNextAlarm cfgDefault 0 = 60 :=
  ⟨by decide, c2_insane_clock_fallback cfgDefault 0 (by decide)⟩

/-- Helper: the clamped sunrise lead is always within 5..60 minutes. -/
theorem sunriseMinEffective_bounds (cfg : DeviceConfig) :
    5 ≤ sunriseMinEffective cfg ∧ sunriseMinEffective cfg ≤ 60 := by
  unfold sunriseMinEffective
  split
  · norm_num
  · next hcond =>
    simp only [Bool.or_eq_true, decide_eq_true_eq, not_or, not_lt] at hcond
    omega

/-- C4. For every configuration and sane wall-clock time the scheduler
returns at least 1 second; in particular when the alarm hour/minute equal
the current time of day exactly, the alarm candidate is advanced by 24
hours, so the result is a full day minus the sunrise lead. -/
theorem c4_scheduler_min_delta (cfg : DeviceConfig) (now : Int)
    (hsane : timekeeperIsTimeSane now = true) :
    1 ≤ timekeeperSecondsUntilNextAlarm cfg now ∧
    (now % 86400 = cfg.alarmHour * 3600 + cfg.alarmMinute * 60 →
      timekeeperSecondsUntilNextAlarm cfg now =
        86400 - (sunriseMinEffective cfg : Int) * 60) := by
  have hs' : (1672531200 : Int) ≤ now := by
    simpa [timekeeperIsTimeSane] using hsane
  have hsm := sunriseMinEffective_bounds cfg
  have hguard : ¬((!timekeeperIsTimeSane now) = true) := by
    rw [hsane]
    decide
  unfold timekeeperSecondsUntilNextAlarm
  rw [if_neg hguard]
  dsimp only
  constructor
  · split_ifs <;> omega
  · intro hmod
    split_ifs <;> omega

/-- C4 witness: at 2023-01-02 07:00:00 with the default 07:00 alarm the
result is 86400 − 1800 = 84600 ≥ 1. -/
theorem c4_scheduler_min_delta_witness :
    timekeeperIsTimeSane 1672556400 = true ∧
    (1 ≤ timekeeperSecondsUntilNextAlarm cfgDefault 1672556400 ∧
      ((1672556400 : Int) % 86400 =
          cfgDefault.alarmHour * 3600 + cfgDefault.alarmMinute * 60 →
        timekeeperSecondsUntilNextAlarm cfgDefault 1672556400 =
          86400 - (sunriseMinEffective cfgDefault : Int) * 60)) :=
  ⟨by decide, c4_scheduler_min_delta cfgDefault 1672556400 (by decide)⟩

/-- Helper: the mid-ramp Q15 value never exceeds a positive target. -/
theorem gradientQ15_le (target totalMs e : Nat) (ht : 1 ≤ target) :
    gradientQ15 target totalMs e ≤ target := by
  dsimp only [gradientQ15]
  exact max_le (min_le_right _ _) ht

/-- Helper: the mid-ramp Q15 value is monotone in the elapsed time. -/
theorem gradientQ15_mono (target totalMs e1 e2 : Nat) (h12 : e1 ≤ e2) :
    gradientQ15 target totalMs e1 ≤ gradientQ15 target totalMs e2 := by
  dsimp only [gradientQ15]
  have hp : min (e1 * 32768 / totalMs) 32768 ≤ min (e2 * 32768 / totalMs) 32768 :=
    min_le_min (Nat.div_le_div_right (Nat.mul_le_mul_right _ h12)) le_rfl
  have hp2 : min (e1 * 32768 / totalMs) 32768 * min (e1 * 32768 / totalMs) 32768 / 32768 ≤
      min (e2 * 32768 / totalMs) 32768 * min (e2 * 32768 / totalMs) 32768 / 32768 :=
    Nat.div_le_div_right (Nat.mul_le_mul hp hp)
  have hp3 : min (e1 * 32768 / totalMs) 32768 * min (e1 * 32768 / totalMs) 32768 / 32768 *
        min (e1 * 32768 / totalMs) 32768 / 32768 ≤
      min (e2 * 32768 / totalMs) 32768 * min (e2 * 32768 / totalMs) 32768 / 32768 *
        min (e2 * 32768 / totalMs) 32768 / 32768 :=
    Nat.div_le_div_right (Nat.mul_le_mul hp2 hp)
  exact max_le_max
    (min_le_min (Nat.div_le_div_right
      (Nat.add_le_add_right (Nat.mul_le_mul hp3 le_rfl) 16384)) le_rfl) le_rfl

/-- Helper: the published gradient brightness never exceeds the target. -/
theorem gradientBrightness_le_target (target totalMs e : Nat) :
    gradientBrightness target totalMs e ≤ target := by
  unfold gradientBrightness
  split_ifs with h1 h2
  · exact Nat.zero_le target
  · exact le_rfl
  · have ht : 1 ≤ target := by
      rcases Nat.eq_zero_or_pos target with h | h
      · exact absurd (by simp [h]) h1
      · exact h
    exact gradientQ15_le target totalMs e ht

/-- Helper: the published gradient brightness is monotone in elapsed time. -/
theorem gradientBrightness_mono (target totalMs e1 e2 : Nat) (h12 : e1 ≤ e2) :
    gradientBrightness target totalMs e1 ≤ gradientBrightness target totalMs e2 := by
  rcases Nat.eq_zero_or_pos target with ht | ht
  · subst ht
    simp [gradientBrightness]
  rcases Nat.eq_zero_or_pos e1 with he1 | he1
  · subst he1
    have hz : gradientBrightness target totalMs 0 = 0 := by
      unfold gradientBrightness
      simp
    rw [hz]
    exact Nat.zero_le _
  by_cases hge : totalMs ≤ e2
  · have he2 : 0 < e2 := lt_of_lt_of_le he1 h12
    have h2 : gradientBrightness target totalMs e2 = target := by
      unfold gradientBrightness
      rw [if_neg (show ¬((decide (target = 0) || decide (e2 = 0)) = true) by
            simp only [Bool.or_eq_true, decide_eq_true_eq, not_or]
            omega),
          if_pos hge]
    rw [h2]
    exact gradientBrightness_le_target target totalMs e1
  · push_neg at hge
    have he2 : 0 < e2 := lt_of_lt_of_le he1 h12
    have hlt1 : ¬(totalMs ≤ e1) := by omega
    have hA : gradientBrightness target totalMs e1 = gradientQ15 target totalMs e1 := by
      unfold gradientBrightness
      rw [if_neg (show ¬((decide (target = 0) || decide (e1 = 0)) = true) by
            simp only [Bool.or_eq_true, decide_eq_true_eq, not_or]
            omega),
          if_neg hlt1]
    have hlt2 : ¬(totalMs ≤ e2) := by omega
    have hB : gradientBrightness target totalMs e2 = gradientQ15 target totalMs e2 := by
      unfold gradientBrightness
      rw [if_neg (show ¬((decide (target = 0) || decide (e2 = 0)) = true) by
            simp only [Bool.or_eq_true, decide_eq_true_eq, not_or]
            omega),
          if_neg hlt2]
    rw [hA, hB]
    exact gradientQ15_mono target totalMs e1 e2 h12

/-- C5. During the alarm gradient with total duration `totalMs > 0` the
published brightness is 0 at elapsed 0, exactly the target at or past the
total duration, at least 1 and at most the target for any non-zero elapsed
time with positive target (the ramp never publishes 0 once started), and
is monotonically non-decreasing in the elapsed time. -/
theorem c5_gradient_shape (target totalMs e e1 e2 : Nat) (htot : 0 < totalMs) :
    gradientBrightness target totalMs 0 = 0 ∧
    (totalMs ≤ e → gradientBrightness target totalMs e = target) ∧
    (0 < e → 0 < target → 1 ≤ gradientBrightness target totalMs e) ∧
    gradientBrightness target totalMs e ≤ target ∧
    (e1 ≤ e2 → gradientBrightness target totalMs e1 ≤ gradientBrightness target totalMs e2) := by
  refine ⟨?_, ?_, ?_, gradientBrightness_le_target target totalMs e,
    fun h12 => gradientBrightness_mono target totalMs e1 e2 h12⟩
  · unfold gradientBrightness
    simp
  · intro hge
    rcases Nat.eq_zero_or_pos target with ht | ht
    · subst ht
      simp [gradientBrightness]
    · unfold gradientBrightness
      rw [if_neg (show ¬((decide (target = 0) || decide (e = 0)) = true) by
            simp only [Bool.or_eq_true, decide_eq_true_eq, not_or]
            omega),
          if_pos hge]
  · intro he ht
    by_cases hge : totalMs ≤ e
    · have hval : gradientBrightness target totalMs e = target := by
        unfold gradientBrightness
        rw [if_neg (show ¬((decide (target = 0) || decide (e = 0)) = true) by
              simp only [Bool.or_eq_true, decide_eq_true_eq, not_or]
              omega),
            if_pos hge]
      rw [hval]
      exact ht
    · have hval : gradientBrightness target totalMs e = gradientQ15 target totalMs e := by
        unfold gradientBrightness
        rw [if_neg (show ¬((decide (target = 0) || decide (e = 0)) = true) by
              simp only [Bool.or_eq_true, decide_eq_true_eq, not_or]
              omega),
            if_neg hge]
      rw [hval]
      dsimp only [gradientQ15]
      exact le_max_right _ _

/-- C5 witness: with target 80 and a 3 ms total, the endpoints, the minimum
clamp and one monotone step are checked concretely. -/
theorem c5_gradient_shape_witness :
    0 < 3 ∧
    (gradientBrightness 80 3 0 = 0 ∧
      (3 ≤ 3 → gradientBrightness 80 3 3 = 80) ∧
      (0 < 3 → 0 < 80 → 1 ≤ gradientBrightness 80 3 3) ∧
      gradientBrightness 80 3 3 ≤ 80 ∧
      (1 ≤ 2 → gradientBrightness 80 3 1 ≤ gradientBrightness 80 3 2)) :=
  ⟨by decide, c5_gradient_shape 80 3 3 1 2 (by decide)⟩

/-- C8. In every session state with a peer connected, none of the three
paths that can issue the advertising start command — the GAP callback, the
public start request and the retry timer handler — emits it, and the
connect event tracks exactly the single new peer. -/
theorem c8_no_adv_while_connected (s : BleSessionState) (ev : GapEvent)
    (r1 r2 r3 : EspResult) (connId : Nat) (hc : s.connected = true) :
    BleCmd.startAdv ∉ (gapCb s ev r1).2 ∧
    BleCmd.startAdv ∉ (bleAlarmStartAdvertising s r1 r2 r3).2.1 ∧
    BleCmd.startAdv ∉ (bleAlarmAdvRetryCb s r1 r2 r3).2 ∧
    (gattsConnect s connId).peer = some connId := by
  obtain ⟨i, c, a, w, d, at1, p1, p2, t, pr⟩ := s
  dsimp only at hc
  subst hc
  refine ⟨?_, ?_, ?_, rfl⟩
  · cases ev with
    | advStartComplete b =>
      cases b <;>
        simp only [gapCb, scheduleAdvRetry, advConfigDoneZero] <;>
        split_ifs <;> simp_all
    | advDataRawSetComplete =>
      simp only [gapCb, scheduleAdvRetry, advConfigDoneZero]
      split_ifs <;> simp_all
    | scanRspDataRawSetComplete =>
      simp only [gapCb, scheduleAdvRetry, advConfigDoneZero]
      split_ifs <;> simp_all
    | advStopComplete =>
      simp only [gapCb, scheduleAdvRetry, advConfigDoneZero]
      split_ifs <;> simp_all
  · cases i <;> simp [bleAlarmStartAdvertising]
  · simp [bleAlarmAdvRetryCb]

/-- C8 witness: in a concrete connected state no start command is emitted
by any of the three paths, and connect tracks peer 1. -/
theorem c8_no_adv_while_connected_witness :
    ({ inited := true, connected := true, advStarted := false, wantAdv := true,
       advDataReady := true, advConfigAttempted := true, pendAdvCfg := false,
       pendScanRspCfg := false, retryTimerMs := none,
       peer := some 1 } : BleSessionState).connected = true ∧
    (BleCmd.startAdv ∉ (gapCb
        { inited := true, connected := true, advStarted := false, wantAdv := true,
          advDataReady := true, advConfigAttempted := true, pendAdvCfg := false,
          pendScanRspCfg := false, retryTimerMs := none, peer := some 1 }
        GapEvent.advStopComplete EspResult.ok).2 ∧
      BleCmd.startAdv ∉ (bleAlarmStartAdvertising
        { inited := true, connected := true, advStarted := false, wantAdv := true,
          advDataReady := true, advConfigAttempted := true, pendAdvCfg := false,
          pendScanRspCfg := false, retryTimerMs := none, peer := some 1 }
        EspResult.ok EspResult.ok EspResult.ok).2.1 ∧
      BleCmd.startAdv ∉ (bleAlarmAdvRetryCb
        { inited := true, connected := true, advStarted := false, wantAdv := true,
          advDataReady := true, advConfigAttempted := true, pendAdvCfg := false,
          pendScanRspCfg := false, retryTimerMs := none, peer := some 1 }
        EspResult.ok EspResult.ok EspResult.ok).2 ∧
      (gattsConnect
        { inited := true, connected := true, advStarted := false, wantAdv := true,
          advDataReady := true, advConfigAttempted := true, pendAdvCfg := false,
          pendScanRspCfg := false, retryTimerMs := none, peer := some 1 } 2).peer =
        some 2) :=
  ⟨rfl, c8_no_adv_while_connected _ GapEvent.advStopComplete
    EspResult.ok EspResult.ok EspResult.ok 2 rfl⟩

/-- C9. The claim lists ≈800 ms as the backoff after a failed start. A
start command completing with a failure status while advertising is wanted
and no peer is connected schedules the retry after 500 ms, not ≈800 ms
(`gap_cb`, `ESP_GAP_BLE_ADV_START_COMPLETE_EVT` failure branch). -/
theorem c9_counterexample :
    (gapCb advReadySession (GapEvent.advStartComplete false) EspResult.ok).1.retryTimerMs =
      some 500 ∧
    some (500 : Nat) ≠ some 800 := by
  decide

/-- C9 (amended). On a configured, advertising-wanted, unconnected session
state every failure path schedules a retry, with these backoffs: 50 ms
after disconnect; 200 ms after an unexpected stop (800 ms if the immediate
restart attempt also fails synchronously); 500 ms after a start-complete
event reporting failure (likewise 800 ms if the immediate restart fails);
800 ms after a synchronously failed start call, which is also returned as
an error; 1200 ms after a synchronously failed start inside the retry
handler; 2000 ms as the steady self-heal tick; and a benign already-active
(`ESP_ERR_INVALID_STATE`) start failure is reported as success. -/
theorem c9_retry_backoff (s : BleSessionState) (r1 r2 : EspResult)
    (hi : s.inited = true) (hc : s.connected = false) (hw : s.wantAdv = true)
    (hd : s.advDataReady = true) (hp1 : s.pendAdvCfg = false)
    (hp2 : s.pendScanRspCfg = false) :
    (gattsDisconnect { s with connected := true }).retryTimerMs = some 50 ∧
    (∀ r, (gapCb s GapEvent.advStopComplete r).1.retryTimerMs = some 200 ∨
      (r ≠ EspResult.ok ∧
        (gapCb s GapEvent.advStopComplete r).1.retryTimerMs = some 800)) ∧
    (∀ r, (gapCb s (GapEvent.advStartComplete false) r).1.retryTimerMs = some 500 ∨
      (r ≠ EspResult.ok ∧
        (gapCb s (GapEvent.advStartComplete false) r).1.retryTimerMs = some 800)) ∧
    (bleAlarmStartAdvertising s r1 r2 EspResult.fail).1.retryTimerMs = some 800 ∧
    (bleAlarmStartAdvertising s r1 r2 EspResult.fail).2.2 = EspResult.fail ∧
    (bleAlarmStartAdvertising s r1 r2 EspResult.invalidState).2.2 = EspResult.ok ∧
    (bleAlarmAdvRetryCb s r1 r2 EspResult.fail).1.retryTimerMs = some 1200 ∧
    (bleAlarmAdvRetryCb s r1 r2 EspResult.ok).1.retryTimerMs = some 2000 := by
  obtain ⟨i, c, a, w, d, at1, p1, p2, t, pr⟩ := s
  dsimp only at hi hc hw hd hp1 hp2
  subst hi hc hw hd hp1 hp2
  refine ⟨?_, ?_, ?_, ?_, ?_, ?_, ?_, ?_⟩
  · simp [gattsDisconnect, scheduleAdvRetry]
  · intro r
    cases r <;>
      simp [gapCb, scheduleAdvRetry, advConfigDoneZero]
  · intro r
    cases r <;>
      simp [gapCb, scheduleAdvRetry, advConfigDoneZero]
  · simp [bleAlarmStartAdvertising, tryConfigAdvPayloads, scheduleAdvRetry,
      advConfigDoneZero]
  · simp [bleAlarmStartAdvertising, tryConfigAdvPayloads, scheduleAdvRetry,
      advConfigDoneZero]
  · simp [bleAlarmStartAdvertising, tryConfigAdvPayloads, scheduleAdvRetry,
      advConfigDoneZero]
  · simp [bleAlarmAdvRetryCb, tryConfigAdvPayloads, scheduleAdvRetry,
      advConfigDoneZero]
  · simp [bleAlarmAdvRetryCb, tryConfigAdvPayloads, scheduleAdvRetry,
      advConfigDoneZero]

/-- C9 witness: all eight backoff facts instantiated on the concrete ready
session state. -/
theorem c9_retry_backoff_witness :
    (advReadySession.inited = true ∧ advReadySession.connected = false ∧
      advReadySession.wantAdv = true ∧ advReadySession.advDataReady = true ∧
      advReadySession.pendAdvCfg = false ∧ advReadySession.pendScanRspCfg = false) ∧
    ((gattsDisconnect { advReadySession with connected := true }).retryTimerMs =
        some 50 ∧
      (∀ r, (gapCb advReadySession GapEvent.advStopComplete r).1.retryTimerMs =
          some 200 ∨
        (r ≠ EspResult.ok ∧
          (gapCb advReadySession GapEvent.advStopComplete r).1.retryTimerMs =
            some 800)) ∧
      (∀ r, (gapCb advReadySession (GapEvent.advStartComplete false) r).1.retryTimerMs =
          some 500 ∨
        (r ≠ EspResult.ok ∧
          (gapCb advReadySession (GapEvent.advStartComplete false) r).1.retryTimerMs =
            some 800)) ∧
      (bleAlarmStartAdvertising advReadySession EspResult.ok EspResult.ok
          EspResult.fail).1.retryTimerMs = some 800 ∧
      (bleAlarmStartAdvertising advReadySession EspResult.ok EspResult.ok
          EspResult.fail).2.2 = EspResult.fail ∧
      (bleAlarmStartAdvertising advReadySession EspResult.ok EspResult.ok
          EspResult.invalidState).2.2 = EspResult.ok ∧
      (bleAlarmAdvRetryCb advReadySession EspResult.ok EspResult.ok
          EspResult.fail).1.retryTimerMs = some 1200 ∧
      (bleAlarmAdvRetryCb advReadySession EspResult.ok EspResult.ok
          EspResult.ok).1.retryTimerMs = some 2000) :=
  ⟨⟨rfl, rfl, rfl, rfl, rfl, rfl⟩,
    c9_retry_backoff advReadySession EspResult.ok EspResult.ok
      rfl rfl rfl rfl rfl rfl⟩

/-- C10. A single physical press yields at most one event. A held poll
reaching the threshold reports LONG exactly once and leaves the
long-reported state; from that state every further held poll and the
eventual release — at any release time, in particular the reachable ones
with hold duration at or past the threshold — report no event (never an
extra SHORT), the release resetting the state. A release after a hold
shorter than the threshold reports exactly one SHORT and resets, and the
reset state reports nothing on further released polls. Only the SHORT
conjuncts use the below-threshold hypothesis on `now`. -/
theorem c10_button_single_event (start longMs now : Nat)
    (hshort : (now - start) / 1000 < longMs) :
    (∀ nL, longMs ≤ (nL - start) / 1000 →
      (buttonPoll ⟨true, start, false⟩ longMs true nL).2 = ButtonEvent.longPress ∧
      (buttonPoll ⟨true, start, false⟩ longMs true nL).1 =
        (⟨true, start, true⟩ : ButtonState)) ∧
    (∀ n2, (buttonPoll ⟨true, start, true⟩ longMs true n2).2 = ButtonEvent.noEvent) ∧
    (∀ n2, (buttonPoll ⟨true, start, true⟩ longMs false n2).2 = ButtonEvent.noEvent ∧
      (buttonPoll ⟨true, start, true⟩ longMs false n2).1 =
        (⟨false, 0, false⟩ : ButtonState)) ∧
    (buttonPoll ⟨true, start, false⟩ longMs false now).2 = ButtonEvent.shortPress ∧
    (buttonPoll ⟨true, start, false⟩ longMs false now).1 =
      (⟨false, 0, false⟩ : ButtonState) ∧
    (∀ n2, (buttonPoll ⟨false, 0, false⟩ longMs false n2).2 = ButtonEvent.noEvent) := by
  have hnle : ¬(longMs ≤ (now - start) / 1000) := Nat.not_le.mpr hshort
  refine ⟨?_, ?_, ?_, ?_, ?_, ?_⟩
  · intro nL hL
    constructor
    · simp [buttonPoll, hL]
    · simp [buttonPoll, hL]
  · intro n2
    simp [buttonPoll]
  · intro n2
    constructor
    · simp [buttonPoll]
    · simp [buttonPoll]
  · simp [buttonPoll, hnle]
  · simp [buttonPoll, hnle]
  · intro n2
    simp [buttonPoll]

/-- C10 witness: threshold 1000 ms, press at 0 µs, short release polled at
500 ms; the LONG and release-after-LONG conjuncts are universally
quantified over the poll time, covering holds past the threshold. -/
theorem c10_button_single_event_witness :
    (500000 - 0) / 1000 < 1000 ∧
    ((∀ nL, 1000 ≤ (nL - 0) / 1000 →
        (buttonPoll ⟨true, 0, false⟩ 1000 true nL).2 = ButtonEvent.longPress ∧
        (buttonPoll ⟨true, 0, false⟩ 1000 true nL).1 =
          (⟨true, 0, true⟩ : ButtonState)) ∧
      (∀ n2, (buttonPoll ⟨true, 0, true⟩ 1000 true n2).2 = ButtonEvent.noEvent) ∧
      (∀ n2, (buttonPoll ⟨true, 0, true⟩ 1000 false n2).2 = ButtonEvent.noEvent ∧
        (buttonPoll ⟨true, 0, true⟩ 1000 false n2).1 =
          (⟨false, 0, false⟩ : ButtonState)) ∧
      (buttonPoll ⟨true, 0, false⟩ 1000 false 500000).2 = ButtonEvent.shortPress ∧
      (buttonPoll ⟨true, 0, false⟩ 1000 false 500000).1 =
        (⟨false, 0, false⟩ : ButtonState) ∧
      (∀ n2, (buttonPoll ⟨false, 0, false⟩ 1000 false n2).2 = ButtonEvent.noEvent)) :=
  ⟨by decide, c10_button_single_event 0 1000 500000 (by decide)⟩

end LightClock
